import Mathlib

/-!
Shallow embedding of src/AnnoyATTiny85.ino: the configuration state machine
(readConfiguration), the wake-scheduler loop (loop, newTriggerCounter, the
watchdog ISR), the tap counter (readActivationPinByte), the tone primitive
(play) and the randomized-glide pattern (annoy3).

Machine integers: the AVR targets have 16-bit int and 32-bit long.  All
reachable values of the int/long globals stay far inside those ranges
(largest product is 60 * 256 = 15360 < 2^15), so they are embedded as Int
with C truncating division written Int.tdiv; the one place where wraparound
is reachable is the int tap counter of readActivationPinByte, whose result
is returned as a byte, so there the 2^16 and 2^8 reductions are explicit.
Randomness (the Arduino random() entropy) is passed in as an explicit
oracle argument.
-/

namespace Annoy

/-- Global mutable state of the sketch: the timing globals at the top of the
file, plus day_counter, started, counter_trigger and the volatile
watchdog_counter. -/
structure DeviceState where
  MIN_COUNTER_TRIGGER : Int
  MAX_COUNTER_TRIGGER : Int
  WATCHDOG_PARAM : Int
  INITIAL_COUNTER_TRIGGER : Int
  device_count : Int
  day_counter : Int
  started : Bool
  counter_trigger : Int
  watchdog_counter : Int
deriving Repr, DecidableEq

/-- TEST_MIN_COUNTER_TRIGGER constant (line 62). -/
def TEST_MIN_COUNTER_TRIGGER : Int := 2

/-- TEST_MAX_COUNTER_TRIGGER constant (line 63). -/
def TEST_MAX_COUNTER_TRIGGER : Int := 4

/-- TEST_WATCHDOG_PARAM constant (line 66): watchdog code 7 = 2 seconds. -/
def TEST_WATCHDOG_PARAM : Int := 7

/-- DAY constant (line 68): wake ticks per day at the 8-second wake period. -/
def DAY : Int := 10800

/-- TEST_INITIAL_COUNTER_TRIGGER constant (line 70). -/
def TEST_INITIAL_COUNTER_TRIGGER : Int := 3

/-- Initial values of the globals: MIN_COUNTER_TRIGGER = 37,
MAX_COUNTER_TRIGGER = 60, WATCHDOG_PARAM = 9, INITIAL_COUNTER_TRIGGER =
1 * DAY, device_count = 1, day_counter = 0, started = false; the
uninitialized globals counter_trigger and watchdog_counter are
zero-initialized as C++ statics. -/
def initState : DeviceState where
  MIN_COUNTER_TRIGGER := 37
  MAX_COUNTER_TRIGGER := 60
  WATCHDOG_PARAM := 9
  INITIAL_COUNTER_TRIGGER := 1 * DAY
  device_count := 1
  day_counter := 0
  started := false
  counter_trigger := 0
  watchdog_counter := 0

/-- Modelled from the spec: the Arduino core function random(howsmall, howbig)
is not part of this repository.  Its standard semantics, which the spec's
phrase "drawn uniformly from [min,max]" paraphrases, is
random(howsmall, howbig) = howsmall + random(howbig - howsmall), where
random(n) returns a nonnegative value reduced modulo n (and 0 when n = 0),
so the upper bound howbig is exclusive whenever the range is nonempty.
The entropy of the underlying random() call is the explicit oracle r. -/
def arduinoRandom (r : Nat) (howsmall howbig : Int) : Int :=
  if howbig - howsmall = 0 then howsmall
  else howsmall + (r : Int) % (howbig - howsmall)

/-- newTriggerCounter (lines 235-237): counter_trigger =
random(MIN_COUNTER_TRIGGER, MAX_COUNTER_TRIGGER). -/
def newTriggerCounter (r : Nat) (s : DeviceState) : DeviceState :=
  { s with counter_trigger := arduinoRandom r s.MIN_COUNTER_TRIGGER s.MAX_COUNTER_TRIGGER }

/-- Counting loop of readActivationPinByte (lines 105-111): one iteration per
tap supplied within the timing windows (readActivationPinBoolean true), then
readActivationPinBoolean times out and the loop exits.  count is a 16-bit
int, so the increment wraps modulo 2^16. -/
def readActivationPinByteLoop : Nat → Nat → Nat
  | 0, count => count
  | n + 1, count => readActivationPinByteLoop n ((count + 1) % 65536)

/-- readActivationPinByte (lines 104-113) as a function of the number of taps
supplied within the timing windows: the int count is returned as a byte,
i.e. reduced modulo 2^8. -/
def readActivationPinByte (taps : Nat) : Nat :=
  readActivationPinByteLoop taps 0 % 256

/-- readConfiguration (lines 115-200) as a function of the operator inputs:
whether the activation window saw a tap, the tap counts of the two counting
stages, and whether the test-mode window saw a tap.  Tone playing and pin
mode changes have no effect on the modelled state. -/
def readConfiguration (active : Bool) (dayTaps deviceTaps : Nat) (testMode : Bool)
    (s : DeviceState) : DeviceState :=
  if active then
    let days : Int := readActivationPinByte dayTaps
    let s1 := { s with device_count := (readActivationPinByte deviceTaps : Int) + 1 }
    let s2 :=
      if testMode then
        { s1 with MIN_COUNTER_TRIGGER := TEST_MIN_COUNTER_TRIGGER
                  MAX_COUNTER_TRIGGER := TEST_MAX_COUNTER_TRIGGER
                  INITIAL_COUNTER_TRIGGER := TEST_INITIAL_COUNTER_TRIGGER
                  WATCHDOG_PARAM := TEST_WATCHDOG_PARAM }
      else s1
    { s2 with MIN_COUNTER_TRIGGER := s2.MIN_COUNTER_TRIGGER * s2.device_count
              MAX_COUNTER_TRIGGER := s2.MAX_COUNTER_TRIGGER * s2.device_count
              INITIAL_COUNTER_TRIGGER := s2.INITIAL_COUNTER_TRIGGER + DAY * days }
  else
    { s with INITIAL_COUNTER_TRIGGER := 0
             MIN_COUNTER_TRIGGER := 0
             MAX_COUNTER_TRIGGER := 0
             WATCHDOG_PARAM := TEST_WATCHDOG_PARAM }

/-- setup (lines 202-231), state part: readConfiguration, then
newTriggerCounter, then counter_trigger += INITIAL_COUNTER_TRIGGER. -/
def setup (active : Bool) (dayTaps deviceTaps : Nat) (testMode : Bool) (r : Nat) :
    DeviceState :=
  let s := readConfiguration active dayTaps deviceTaps testMode initState
  let s1 := newTriggerCounter r s
  { s1 with counter_trigger := s1.counter_trigger + s1.INITIAL_COUNTER_TRIGGER }

/-- Watchdog interrupt handler ISR(WDT_vect) (lines 334-336): increments the
volatile watchdog_counter by one per timer firing. -/
def ISR_WDT_vect (s : DeviceState) : DeviceState :=
  { s with watchdog_counter := s.watchdog_counter + 1 }

/-- First phase of loop (lines 252-254): if (started) day_counter++. -/
def dayIncrement (s : DeviceState) : DeviceState :=
  if s.started then { s with day_counter := s.day_counter + 1 } else s

/-- Second phase of loop (lines 263-293): at the DAY*3 boundary, reset
day_counter, and when device_count > 1 shrink both bounds by
(device_count - 1)/device_count using C truncating int division, then
decrement device_count. -/
def dayDecay (s : DeviceState) : DeviceState :=
  if DAY * 3 ≤ s.day_counter then
    let s1 := { s with day_counter := 0 }
    if 1 < s1.device_count then
      { s1 with
          MIN_COUNTER_TRIGGER :=
            (Int.tdiv s1.MIN_COUNTER_TRIGGER s1.device_count) * (s1.device_count - 1)
          MAX_COUNTER_TRIGGER :=
            (Int.tdiv s1.MAX_COUNTER_TRIGGER s1.device_count) * (s1.device_count - 1)
          device_count := s1.device_count - 1 }
    else s1
  else s

/-- Third phase of loop (lines 302-309): if watchdog_counter has reached
counter_trigger, zero watchdog_counter, redraw counter_trigger with
newTriggerCounter, set started, and play an annoyance episode (no state
effect). -/
def triggerCheck (r : Nat) (s : DeviceState) : DeviceState :=
  if s.counter_trigger ≤ s.watchdog_counter then
    { newTriggerCounter r { s with watchdog_counter := 0 } with started := true }
  else s

/-- One iteration of loop (lines 239-310) after waking: day accumulation,
decay evaluation, trigger comparison.  r is the entropy of the random()
call made if the trigger fires. -/
def loop (r : Nat) (s : DeviceState) : DeviceState :=
  triggerCheck r (dayDecay (dayIncrement s))

/-- Wake period in milliseconds of each watchdog prescaler code, from the
table in the comment above setup_watchdog (lines 312-313); setup_watchdog
clamps codes above 9 to 9 (line 318). -/
def watchdogPeriodMs (ii : Nat) : Nat :=
  [16, 32, 64, 128, 250, 500, 1000, 2000, 4000, 8000].getD (min ii 9) 0

/-- DUTY constant (line 79). -/
def DUTY : Nat := 30

/-- Microseconds the piezo pin is held high per square-wave cycle of play
(lines 351-354): pa = period * DUTY / 100, capped at 150. -/
def playPa (period : Nat) : Nat :=
  if period * DUTY / 100 > 150 then 150 else period * DUTY / 100

/-- Microseconds the piezo pin is held low per square-wave cycle of play
(line 355): pb = period - pa. -/
def playPb (period : Nat) : Nat := period - playPa period

/-- One iteration of the busy-wait loop of play (lines 356-361): pin high for
pa microseconds, then low for pb microseconds. -/
def playCycle (period : Nat) : List (Bool × Nat) :=
  [(true, playPa period), (false, playPb period)]

/-- Waveform play emits on the piezo pin over a whole call, as a list of
(level, microseconds) segments; cycles is the number of iterations the
millis()-bounded busy-wait loop performs (0 when durationMillis is 0). -/
def playTrace (period cycles : Nat) : List (Bool × Nat) :=
  (List.replicate cycles (playCycle period)).flatten

/-- Total microseconds a waveform holds the pin high. -/
def highMicros (tr : List (Bool × Nat)) : Nat :=
  ((tr.filter (fun p => p.1)).map (fun p => p.2)).sum

/-- Period array filled by annoy3 (lines 416-419): periods[x] =
random(mn, mx) for x = 0..99, with rs the entropy oracle of the 100
random() calls. -/
def annoy3Periods (rs : Nat → Nat) (mn mx : Int) : List Int :=
  (List.range 100).map (fun x => arduinoRandom (rs x) mn mx)

/-- Indices of the forward playing loop of annoy3 (lines 421-423):
x = 0, 1, ..., 99. -/
def annoy3ForwardIdx : List Nat := List.range 100

/-- Indices of the reversed playing loop of annoy3 (lines 424-426), which
starts at x = 100 and runs down to x = 0: 100, 99, ..., 0. -/
def annoy3ReverseIdx : List Nat := (List.range 101).reverse

/-- Configuration invariant maintained by the sketch: nonnegative interval
bounds with min at most max, and at least one device. -/
def Inv (s : DeviceState) : Prop :=
  0 ≤ s.MIN_COUNTER_TRIGGER ∧
    s.MIN_COUNTER_TRIGGER ≤ s.MAX_COUNTER_TRIGGER ∧ 1 ≤ s.device_count

instance (s : DeviceState) : Decidable (Inv s) := by unfold Inv; infer_instance

/-! Helper lemmas. -/

theorem readActivationPinByteLoop_eq (n : Nat) : ∀ c, c < 65536 →
    readActivationPinByteLoop n c = (c + n) % 65536 := by
  induction n with
  | zero =>
    intro c hc
    simp [readActivationPinByteLoop, Nat.mod_eq_of_lt hc]
  | succ n ih =>
    intro c hc
    rw [readActivationPinByteLoop, ih ((c + 1) % 65536) (Nat.mod_lt _ (by norm_num)),
      Nat.mod_add_mod]
    congr 1
    omega

theorem readActivationPinByte_eq (n : Nat) : readActivationPinByte n = n % 256 := by
  rw [readActivationPinByte, readActivationPinByteLoop_eq n 0 (by norm_num)]
  rw [Nat.zero_add]
  exact Nat.mod_mod_of_dvd n (by norm_num)

theorem arduinoRandom_bounds (r : Nat) {a b : Int} (hab : a ≤ b) :
    a ≤ arduinoRandom r a b ∧ arduinoRandom r a b ≤ b := by
  unfold arduinoRandom
  split
  · omega
  · rename_i h
    have hpos : 0 < b - a := by omega
    have h1 : 0 ≤ (r : Int) % (b - a) := Int.emod_nonneg _ (by omega)
    have h2 : (r : Int) % (b - a) < b - a := Int.emod_lt_of_pos _ hpos
    omega

theorem dayIncrement_fields (s : DeviceState) :
    (dayIncrement s).MIN_COUNTER_TRIGGER = s.MIN_COUNTER_TRIGGER ∧
    (dayIncrement s).MAX_COUNTER_TRIGGER = s.MAX_COUNTER_TRIGGER ∧
    (dayIncrement s).device_count = s.device_count ∧
    (dayIncrement s).counter_trigger = s.counter_trigger ∧
    (dayIncrement s).watchdog_counter = s.watchdog_counter := by
  unfold dayIncrement
  split <;> simp

theorem dayDecay_fields (s : DeviceState) :
    (dayDecay s).counter_trigger = s.counter_trigger ∧
    (dayDecay s).watchdog_counter = s.watchdog_counter := by
  unfold dayDecay
  split
  · dsimp only
    split <;> simp
  · simp

theorem dayDecay_day_counter (s : DeviceState) :
    (dayDecay s).day_counter = if DAY * 3 ≤ s.day_counter then 0 else s.day_counter := by
  unfold dayDecay
  split
  · dsimp only
    split <;> simp_all
  · simp_all

theorem triggerCheck_day_counter (r : Nat) (s : DeviceState) :
    (triggerCheck r s).day_counter = s.day_counter := by
  unfold triggerCheck newTriggerCounter
  split <;> simp

theorem dayIncrement_inv {s : DeviceState} (h : Inv s) : Inv (dayIncrement s) := by
  obtain ⟨h0, h1, h2⟩ := h
  unfold dayIncrement
  split <;> exact ⟨h0, h1, h2⟩

theorem dayDecay_inv {s : DeviceState} (h : Inv s) : Inv (dayDecay s) := by
  obtain ⟨h0, h1, h2⟩ := h
  unfold dayDecay
  split
  · dsimp only
    split
    · rename_i hdc
      have hdc0 : (0 : Int) < s.device_count := by omega
      have hmax : 0 ≤ s.MAX_COUNTER_TRIGGER := le_trans h0 h1
      have e1 : Int.tdiv s.MIN_COUNTER_TRIGGER s.device_count =
          s.MIN_COUNTER_TRIGGER / s.device_count := Int.tdiv_eq_ediv h0 (le_of_lt hdc0)
      have e2 : Int.tdiv s.MAX_COUNTER_TRIGGER s.device_count =
          s.MAX_COUNTER_TRIGGER / s.device_count := Int.tdiv_eq_ediv hmax (le_of_lt hdc0)
      refine ⟨?_, ?_, ?_⟩
      · show 0 ≤ Int.tdiv s.MIN_COUNTER_TRIGGER s.device_count * (s.device_count - 1)
        rw [e1]
        exact mul_nonneg (Int.ediv_nonneg h0 (le_of_lt hdc0)) (by omega)
      · show Int.tdiv s.MIN_COUNTER_TRIGGER s.device_count * (s.device_count - 1) ≤
            Int.tdiv s.MAX_COUNTER_TRIGGER s.device_count * (s.device_count - 1)
        rw [e1, e2]
        exact mul_le_mul_of_nonneg_right (Int.ediv_le_ediv hdc0 h1) (by omega)
      · show (1 : Int) ≤ s.device_count - 1
        omega
    · exact ⟨h0, h1, h2⟩
  · exact ⟨h0, h1, h2⟩

theorem triggerCheck_inv {s : DeviceState} (r : Nat) (h : Inv s) :
    Inv (triggerCheck r s) := by
  obtain ⟨h0, h1, h2⟩ := h
  unfold triggerCheck newTriggerCounter
  split <;> exact ⟨h0, h1, h2⟩

/-! Claim theorems. -/

/-- C6 (amended): the tap-counting operation readActivationPinByte returns
the number of taps supplied within the timing windows reduced modulo 256
(its return type is a byte): exactly n whenever n is at most 255, and 0 when
no tap occurs before the first timeout. -/
theorem C6_countTaps_mod :
    readActivationPinByte 0 = 0 ∧
    (∀ n : Nat, readActivationPinByte n = n % 256) ∧
    (∀ n : Nat, n < 256 → readActivationPinByte n = n) := by
  refine ⟨rfl, fun n => readActivationPinByte_eq n, fun n hn => ?_⟩
  rw [readActivationPinByte_eq]
  exact Nat.mod_eq_of_lt hn

/-- C6 witness: five taps within the windows are counted as exactly five. -/
theorem C6_countTaps_mod_witness : readActivationPinByte 5 = 5 :=
  C6_countTaps_mod.2.2 5 (by decide)

/-- C6 counterexample: 256 taps supplied within the timing windows make
readActivationPinByte return 0, not 256 — the claim fails as stated for
every n that is not below 256. -/
theorem C6_counterexample : readActivationPinByte 256 = 0 ∧ (0 : Nat) ≠ 256 := by
  constructor
  · rw [readActivationPinByte_eq]
  · decide

/-- C1 (amended): for an activated run with d taps in the days stage and k
taps in the other-devices stage, both below 256 (tap counts are returned as
a byte), and test mode not enabled, the configuration has deviceCount =
k + 1, interval bounds (37 (k+1), 60 (k+1)) — baseMin 37 and baseMax 60
each multiplied by deviceCount — and initial delay 1 * DAY + DAY * d. -/
theorem C1_config_bounds (d k : Nat) (hd : d < 256) (hk : k < 256) :
    (readConfiguration true d k false initState).device_count = (k : Int) + 1 ∧
    (readConfiguration true d k false initState).MIN_COUNTER_TRIGGER = 37 * ((k : Int) + 1) ∧
    (readConfiguration true d k false initState).MAX_COUNTER_TRIGGER = 60 * ((k : Int) + 1) ∧
    (readConfiguration true d k false initState).INITIAL_COUNTER_TRIGGER =
      1 * DAY + DAY * (d : Int) := by
  have hd1 : readActivationPinByte d = d := by
    rw [readActivationPinByte_eq]; exact Nat.mod_eq_of_lt hd
  have hk1 : readActivationPinByte k = k := by
    rw [readActivationPinByte_eq]; exact Nat.mod_eq_of_lt hk
  simp [readConfiguration, initState, hd1, hk1]

/-- C1 witness: three day taps and two other-device taps give deviceCount 3,
bounds (111, 180) and initial delay 4 * DAY. -/
theorem C1_config_bounds_witness :
    (readConfiguration true 3 2 false initState).device_count = ((2 : Nat) : Int) + 1 ∧
    (readConfiguration true 3 2 false initState).MIN_COUNTER_TRIGGER =
      37 * (((2 : Nat) : Int) + 1) ∧
    (readConfiguration true 3 2 false initState).MAX_COUNTER_TRIGGER =
      60 * (((2 : Nat) : Int) + 1) ∧
    (readConfiguration true 3 2 false initState).INITIAL_COUNTER_TRIGGER =
      1 * DAY + DAY * ((3 : Nat) : Int) :=
  C1_config_bounds 3 2 (by decide) (by decide)

/-- C1 counterexample: with 256 taps in the other-devices stage the byte tap
count wraps to 0, so deviceCount is 1 and the min bound is 37, not the
37 * 257 the claim demands for k = 256. -/
theorem C1_counterexample :
    (readConfiguration true 0 256 false initState).device_count = 1 ∧
    (readConfiguration true 0 256 false initState).MIN_COUNTER_TRIGGER = 37 ∧
    ((1 : Int) ≠ 256 + 1) ∧ ((37 : Int) ≠ 37 * (256 + 1)) := by
  have hk : readActivationPinByte 256 = 0 := by rw [readActivationPinByte_eq]
  refine ⟨?_, ?_, by decide, by decide⟩ <;> simp [readConfiguration, initState, hk]

/-- C2 (amended): if the AwaitActivation window elapses with no tap, the
configuration has min = max = initial delay = 0 and the wake period set to
the test watchdog code 7 (2000 ms) — faster than the production code 9
(8000 ms), though not the fastest period available (code 0, 16 ms). -/
theorem C2_super_annoying_config (dayTaps deviceTaps : Nat) (testMode : Bool) :
    (readConfiguration false dayTaps deviceTaps testMode initState).MIN_COUNTER_TRIGGER = 0 ∧
    (readConfiguration false dayTaps deviceTaps testMode initState).MAX_COUNTER_TRIGGER = 0 ∧
    (readConfiguration false dayTaps deviceTaps testMode initState).INITIAL_COUNTER_TRIGGER = 0 ∧
    (readConfiguration false dayTaps deviceTaps testMode initState).WATCHDOG_PARAM =
      TEST_WATCHDOG_PARAM ∧
    watchdogPeriodMs TEST_WATCHDOG_PARAM.toNat = 2000 ∧
    watchdogPeriodMs initState.WATCHDOG_PARAM.toNat = 8000 := by
  refine ⟨?_, ?_, ?_, ?_, by decide, by decide⟩ <;> simp [readConfiguration]

/-- C2 counterexample: the wake period the no-tap branch installs is 2000 ms
(watchdog code 7), while the fastest wake period available is 16 ms
(watchdog code 0), so the claimed "fastest wake period available" is false. -/
theorem C2_counterexample :
    watchdogPeriodMs ((readConfiguration false 0 0 false initState).WATCHDOG_PARAM.toNat)
      = 2000 ∧
    watchdogPeriodMs 0 = 16 ∧ (16 : Nat) < 2000 := by
  decide

/-- State at a multi-day decay boundary with the given bounds and device
count: day_counter has just reached DAY * 3 with the device started. -/
def decayState (mn mx dc : Int) : DeviceState :=
  { initState with MIN_COUNTER_TRIGGER := mn, MAX_COUNTER_TRIGGER := mx,
                   device_count := dc, day_counter := DAY * 3, started := true }

/-- C4: at a decay boundary with deviceCount 4 and bounds (100, 200) the
decay step yields bounds (75, 150) and deviceCount 3; repeating at the
following boundaries yields (50, 100) with deviceCount 2 and (25, 50) with
deviceCount 1, and a further boundary with deviceCount 1 leaves the bounds
and the device count unchanged (only day_counter is reset). -/
theorem C4_decay_chain :
    ((dayDecay (decayState 100 200 4)).MIN_COUNTER_TRIGGER = 75 ∧
     (dayDecay (decayState 100 200 4)).MAX_COUNTER_TRIGGER = 150 ∧
     (dayDecay (decayState 100 200 4)).device_count = 3) ∧
    ((dayDecay (decayState 75 150 3)).MIN_COUNTER_TRIGGER = 50 ∧
     (dayDecay (decayState 75 150 3)).MAX_COUNTER_TRIGGER = 100 ∧
     (dayDecay (decayState 75 150 3)).device_count = 2) ∧
    ((dayDecay (decayState 50 100 2)).MIN_COUNTER_TRIGGER = 25 ∧
     (dayDecay (decayState 50 100 2)).MAX_COUNTER_TRIGGER = 50 ∧
     (dayDecay (decayState 50 100 2)).device_count = 1) ∧
    ((dayDecay (decayState 25 50 1)).MIN_COUNTER_TRIGGER = 25 ∧
     (dayDecay (decayState 25 50 1)).MAX_COUNTER_TRIGGER = 50 ∧
     (dayDecay (decayState 25 50 1)).device_count = 1 ∧
     (dayDecay (decayState 25 50 1)).day_counter = 0) := by
  decide

/-- C9: the glide pattern annoy3 stores exactly 100 random periods, and its
forward loop reads only indices below 100; but the reversed loop starts at
index 100, which is out of bounds for the 100-element array (get? returns
none there), so not every array access is within bounds. -/
theorem C9_reverse_out_of_bounds :
    (annoy3Periods (fun _ => 0) 400 500).length = 100 ∧
    (∀ i, i ∈ annoy3ForwardIdx → i < 100) ∧
    annoy3ReverseIdx.length = 101 ∧
    annoy3ReverseIdx.head? = some 100 ∧
    (annoy3Periods (fun _ => 0) 400 500).get? 100 = none := by
  decide

/-- C3: on a wake at which watchdog_counter has reached counter_trigger, the
loop body zeroes watchdog_counter and redraws counter_trigger to a value
within the closed interval of the current (post-decay) interval bounds. -/
theorem C3_trigger_reset_redraw (s : DeviceState) (r : Nat) (hInv : Inv s)
    (hfire : s.counter_trigger ≤ s.watchdog_counter) :
    (loop r s).watchdog_counter = 0 ∧
    (dayDecay (dayIncrement s)).MIN_COUNTER_TRIGGER ≤ (loop r s).counter_trigger ∧
    (loop r s).counter_trigger ≤ (dayDecay (dayIncrement s)).MAX_COUNTER_TRIGGER := by
  have hInv2 : Inv (dayDecay (dayIncrement s)) := dayDecay_inv (dayIncrement_inv hInv)
  have hct : (dayDecay (dayIncrement s)).counter_trigger = s.counter_trigger := by
    rw [(dayDecay_fields _).1, (dayIncrement_fields s).2.2.2.1]
  have hwc : (dayDecay (dayIncrement s)).watchdog_counter = s.watchdog_counter := by
    rw [(dayDecay_fields _).2, (dayIncrement_fields s).2.2.2.2]
  have hbounds := arduinoRandom_bounds r hInv2.2.1
  unfold loop triggerCheck
  rw [if_pos (by rw [hct, hwc]; exact hfire)]
  exact ⟨rfl, hbounds.1, hbounds.2⟩

/-- C3 witness: from the initial state (trigger 0 already reached by the
wake counter) the loop zeroes the wake counter and redraws the trigger
within the current bounds. -/
theorem C3_trigger_reset_redraw_witness :
    (loop 7 initState).watchdog_counter = 0 ∧
    (dayDecay (dayIncrement initState)).MIN_COUNTER_TRIGGER ≤
      (loop 7 initState).counter_trigger ∧
    (loop 7 initState).counter_trigger ≤
      (dayDecay (dayIncrement initState)).MAX_COUNTER_TRIGGER :=
  C3_trigger_reset_redraw initState 7 (by decide) (by decide)

/-- C5: the invariant 0 ≤ min ≤ max together with deviceCount ≥ 1 holds
after every configuration branch (activated or not, test mode or not) and
is preserved by every loop iteration, decay steps included; it entails the
claimed min ≤ max and deviceCount ≥ 1. -/
theorem C5_invariant :
    (∀ (active : Bool) (dayTaps deviceTaps : Nat) (testMode : Bool),
      Inv (readConfiguration active dayTaps deviceTaps testMode initState)) ∧
    (∀ (s : DeviceState) (r : Nat), Inv s → Inv (loop r s)) ∧
    (∀ s : DeviceState, Inv s →
      s.MIN_COUNTER_TRIGGER ≤ s.MAX_COUNTER_TRIGGER ∧ 1 ≤ s.device_count) := by
  refine ⟨?_, ?_, fun s h => ⟨h.2.1, h.2.2⟩⟩
  · intro active d k t
    cases active with
    | false =>
      refine ⟨?_, ?_, ?_⟩ <;> simp [readConfiguration, initState, Inv]
    | true =>
      cases t with
      | false =>
        refine ⟨?_, ?_, ?_⟩ <;> simp [readConfiguration, initState, Inv]
        positivity
      | true =>
        refine ⟨?_, ?_, ?_⟩ <;>
          simp [readConfiguration, initState, Inv, TEST_MIN_COUNTER_TRIGGER,
            TEST_MAX_COUNTER_TRIGGER]
        positivity
  · intro s r h
    exact triggerCheck_inv r (dayDecay_inv (dayIncrement_inv h))

/-- C5 witness: the invariant holds in the initial state and after one loop
iteration from it. -/
theorem C5_invariant_witness : Inv (loop 0 initState) :=
  C5_invariant.2.1 initState 0 (by decide)

/-- C7: the one-time initial delay is part of the trigger threshold only for
the very first comparison cycle: setup sets counter_trigger to the random
draw plus INITIAL_COUNTER_TRIGGER, while every redraw after a firing is
exactly the random draw from the current bounds, with no initial-delay
component added. -/
theorem C7_initial_delay_only_first :
    (∀ (active : Bool) (dayTaps deviceTaps : Nat) (testMode : Bool) (r : Nat),
      (setup active dayTaps deviceTaps testMode r).counter_trigger =
        arduinoRandom r
          (readConfiguration active dayTaps deviceTaps testMode initState).MIN_COUNTER_TRIGGER
          (readConfiguration active dayTaps deviceTaps testMode initState).MAX_COUNTER_TRIGGER +
        (readConfiguration active dayTaps deviceTaps testMode initState).INITIAL_COUNTER_TRIGGER) ∧
    (∀ (s : DeviceState) (r : Nat), s.counter_trigger ≤ s.watchdog_counter →
      (loop r s).counter_trigger =
        arduinoRandom r (dayDecay (dayIncrement s)).MIN_COUNTER_TRIGGER
          (dayDecay (dayIncrement s)).MAX_COUNTER_TRIGGER) := by
  constructor
  · intro active d k t r
    simp [setup, newTriggerCounter]
  · intro s r hfire
    have hct : (dayDecay (dayIncrement s)).counter_trigger = s.counter_trigger := by
      rw [(dayDecay_fields _).1, (dayIncrement_fields s).2.2.2.1]
    have hwc : (dayDecay (dayIncrement s)).watchdog_counter = s.watchdog_counter := by
      rw [(dayDecay_fields _).2, (dayIncrement_fields s).2.2.2.2]
    unfold loop triggerCheck
    rw [if_pos (by rw [hct, hwc]; exact hfire)]
    simp [newTriggerCounter]

/-- C7 witness: a firing from the initial state redraws the threshold as
exactly the random draw from the current bounds. -/
theorem C7_initial_delay_only_first_witness :
    (loop 5 initState).counter_trigger =
      arduinoRandom 5 (dayDecay (dayIncrement initState)).MIN_COUNTER_TRIGGER
        (dayDecay (dayIncrement initState)).MAX_COUNTER_TRIGGER :=
  C7_initial_delay_only_first.2 initState 5 (by decide)

/-- C10: whenever day_counter has reached DAY * 3 after the per-wake
increment, the loop body resets it to 0 unconditionally (the reset precedes
the deviceCount > 1 decay guard), and after every loop iteration
day_counter is at most DAY * 3. -/
theorem C10_day_counter_reset_bound :
    (∀ (s : DeviceState) (r : Nat), DAY * 3 ≤ (dayIncrement s).day_counter →
      (loop r s).day_counter = 0) ∧
    (∀ (s : DeviceState) (r : Nat), (loop r s).day_counter ≤ DAY * 3) := by
  have key : ∀ (s : DeviceState) (r : Nat), (loop r s).day_counter =
      if DAY * 3 ≤ (dayIncrement s).day_counter then 0
      else (dayIncrement s).day_counter := by
    intro s r
    rw [loop, triggerCheck_day_counter, dayDecay_day_counter]
  constructor
  · intro s r h
    rw [key, if_pos h]
  · intro s r
    rw [key]
    split
    · simp [DAY]
    · rename_i h
      simp [DAY] at h ⊢
      omega

/-- C10 witness: a state sitting exactly at the boundary with deviceCount 1
still has its day counter reset to 0 by the loop. -/
theorem C10_day_counter_reset_bound_witness :
    (loop 0 { initState with day_counter := DAY * 3 }).day_counter = 0 :=
  C10_day_counter_reset_bound.1 { initState with day_counter := DAY * 3 } 0 (by decide)

/-- C8: the tone primitive play is total and safe for every period and cycle
count: the pin-high time per cycle is period * DUTY / 100 capped at 150
microseconds, high plus low time recover the full period, a zero duration
(zero busy-wait cycles) produces an empty waveform, and a zero period
produces a waveform with zero total high time (continuous low). -/
theorem C8_play_safety :
    (∀ period : Nat, playPa period = min (period * DUTY / 100) 150) ∧
    (∀ period : Nat, playPa period ≤ 150) ∧
    (∀ period : Nat, playPa period + playPb period = period) ∧
    (∀ period : Nat, playTrace period 0 = []) ∧
    (∀ cycles : Nat, highMicros (playTrace 0 cycles) = 0) := by
  have hle : ∀ period : Nat, period * DUTY / 100 ≤ period := by
    intro p
    calc p * DUTY / 100 ≤ p * 100 / 100 :=
          Nat.div_le_div_right (Nat.mul_le_mul_left p (by norm_num [DUTY]))
      _ = p := Nat.mul_div_cancel p (by norm_num)
  refine ⟨?_, ?_, ?_, ?_, ?_⟩
  · intro p
    rw [playPa, Nat.min_def]
    split <;> split <;> omega
  · intro p
    rw [playPa]
    split <;> omega
  · intro p
    have := hle p
    rw [playPa, playPb, playPa]
    split <;> omega
  · intro p
    rw [playTrace]
    simp
  · intro cycles
    have happ : ∀ a b : List (Bool × Nat),
        highMicros (a ++ b) = highMicros a + highMicros b := by
      intro a b
      simp [highMicros, List.filter_append]
    have hcycle : playCycle 0 = [(true, 0), (false, 0)] := by decide
    induction cycles with
    | zero => simp [playTrace, highMicros]
    | succ n ih =>
      rw [playTrace, List.replicate_succ, List.flatten_cons, happ]
      rw [playTrace] at ih
      rw [ih, hcycle]
      decide

end Annoy
